import Mathlib

/-!
Shallow embedding of `stoppage_analysis.py`: a linear pipeline that loads GPS
ping rows from a spreadsheet, coerces timestamp/latitude/longitude to numeric
values, sorts by timestamp, drops rows with invalid coordinates, detects
stoppages, and renders a folium map with one marker per stoppage.

Machine floats of the script are modelled as exact rationals (`Rat`);
a value that failed `pd.to_numeric(..., errors='coerce')` is `none`
(pandas NaN/NaT).  External effects (the Google-Sheets fetch, exceptions
raised by the third-party libraries, the HTML save) are inputs of the run
function `runScript`.
-/

namespace StoppageAnalysis

/-- shapely `Point(xy)` built from `zip(df['longitude'], df['latitude'])`
(line 79): `x` is the longitude, `y` the latitude. -/
structure Point where
  x : Rat
  y : Rat
deriving DecidableEq, Repr

/-- One sheet row after the element-wise numeric coercions
(`pd.to_numeric(..., errors='coerce')`, lines 49, 63, 65): `none` is the
NaN a failed parse leaves behind.  `pd.to_datetime(..., unit='ms')`
(line 50) interprets `eventGeneratedTime` as epoch milliseconds, so the
`Timestamp` index of a row is its `eventGeneratedTime` value (NaT when
`none`). -/
structure RawRow where
  eventGeneratedTime : Option Int
  latitude : Option Rat
  longitude : Option Rat
deriving DecidableEq, Repr

/-- The raw table fetched from the sheet: header-derived column names plus
the coerced rows (line 32). -/
structure RawTable where
  header : List String
  rows : List RawRow
deriving DecidableEq, Repr

/-- Key order of `df.set_index('Timestamp').sort_index()` (line 57):
datetimes ascending, NaT sorted last (pandas default `na_position='last'`). -/
def tsLe : Option Int → Option Int → Bool
  | _, none => true
  | none, some _ => false
  | some a, some b => decide (a ≤ b)

/-- Insert one row into a list already sorted by `tsLe` on the timestamp. -/
def insertTS (r : RawRow) : List RawRow → List RawRow
  | [] => [r]
  | s :: l =>
    if tsLe r.eventGeneratedTime s.eventGeneratedTime then r :: s :: l
    else s :: insertTS r l

/-- `df = df.set_index('Timestamp').sort_index()` (line 57): the rows
reordered so the timestamp index is non-decreasing, NaT last. -/
def sortByTimestamp : List RawRow → List RawRow
  | [] => []
  | r :: l => insertTS r (sortByTimestamp l)

/-- A row of the prepared GeoDataFrame `gdf` (lines 57-82): the
`Timestamp` index (NaT = `none`), the numeric coordinates, and the
`geometry` point. -/
structure GeoRow where
  timestamp : Option Int
  latitude : Rat
  longitude : Rat
  geometry : Point
deriving DecidableEq, Repr

/-- `df.dropna(subset=['latitude', 'longitude'])` (line 72) keeps a row iff
both coordinates parsed; a kept row gets `Point(longitude, latitude)`
(line 79).  The subset does not include `Timestamp` (the source notes
"REMOVED 'Timestamp' from subset"), so `eventGeneratedTime = none` does not
drop the row. -/
def toGeoRow (r : RawRow) : Option GeoRow :=
  match r.latitude, r.longitude with
  | some la, some lo => some ⟨r.eventGeneratedTime, la, lo, ⟨lo, la⟩⟩
  | _, _ => none

/-- Step 2 data path (lines 49-82): sort by the timestamp index, drop the
rows whose latitude or longitude failed to parse, attach geometry. -/
def prepare (rows : List RawRow) : List GeoRow :=
  (sortByTimestamp rows).filterMap toGeoRow

/-- Step 2 as a stage (lines 46-88): `df['eventGeneratedTime']`,
`df['latitude']` and `df['longitude']` raise `KeyError` when the sheet lacks
the column; the `except` block reports the error and the run aborts. -/
def prepareTable (t : RawTable) : Except String (List GeoRow) :=
  if "eventGeneratedTime" ∈ t.header ∧ "latitude" ∈ t.header ∧ "longitude" ∈ t.header
  then .ok (prepare t.rows)
  else .error "Error preparing GeoDataFrame"

/-- `STOPPAGE_THRESHOLD_MINUTES = 5` (line 20). -/
def STOPPAGE_THRESHOLD_MINUTES : Int := 5

/-- `min_duration_td = timedelta(minutes=STOPPAGE_THRESHOLD_MINUTES)`
(line 100), in epoch milliseconds. -/
def min_duration_ms : Int := STOPPAGE_THRESHOLD_MINUTES * 60 * 1000

/-- `max_diameter_meters = 50` (line 101). -/
def max_diameter_meters : Rat := 50

/-- A GPS ping handed to the stop detector: epoch-millisecond time and the
planar coordinates (x = longitude, y = latitude). -/
structure Ping where
  t : Int
  x : Rat
  y : Rat
deriving DecidableEq, Repr

/-- Squared planar distance between two pings, compared against the squared
maximum diameter so everything stays rational. -/
def dist2 (p q : Ping) : Rat := (p.x - q.x) ^ 2 + (p.y - q.y) ^ 2

/-- Whether ping `p` stays within the (squared) maximum diameter of every
ping already in the group. -/
def fits (d2 : Rat) (grp : List Ping) (p : Ping) : Bool :=
  grp.all fun q => decide (dist2 p q ≤ d2)

/-- Modelled from the spec: the grouping phase of
`mpd.TrajectoryStopDetector.get_stop_points` (line 104), whose code is the
third-party movingpandas library and not part of this repository.  Per the
spec's glossary a stop is "a sub-interval of a trajectory where the vehicle
remained within a bounded spatial diameter"; the trajectory is split into
maximal consecutive runs whose points stay pairwise within the maximum
diameter. -/
def groupPings (d2 : Rat) : List Ping → List Ping → List (List Ping)
  | cur, [] => [cur]
  | cur, p :: ps =>
    if fits d2 cur p then groupPings d2 (cur ++ [p]) ps
    else cur :: groupPings d2 [p] ps

/-- Whether a run of pings spans at least the minimum stationary duration
(milliseconds between its first and last ping). -/
def durOk (minDurMs : Int) : List Ping → Bool
  | [] => false
  | p :: gs => decide (minDurMs ≤ (gs.getLastD p).t - p.t)

/-- Modelled from the spec: the runs of pings that qualify as stops — the
maximal within-diameter runs that last at least the minimum duration
("for at least a minimum duration", spec glossary). -/
def stopGroups (minDurMs : Int) (d2 : Rat) : List Ping → List (List Ping)
  | [] => []
  | p :: ps => (groupPings d2 [p] ps).filter (durOk minDurMs)

/-- A row of the detector's output table: `start_time`, `end_time`,
`duration_s` (seconds) and the representative `geometry` point. -/
structure Stop where
  start_time : Int
  end_time : Int
  duration_s : Rat
  geometry : Point
deriving DecidableEq, Repr

/-- Modelled from the spec: the stoppage interval a qualifying run yields —
start time, end time, duration (seconds), representative point
("derived entity — start time, end time, duration, representative point",
spec section 3). -/
def stopOfGroup : List Ping → Option Stop
  | [] => none
  | p :: gs =>
    let e := (gs.getLastD p).t
    some ⟨p.t, e, ((e - p.t : Int) : Rat) / 1000, ⟨p.x, p.y⟩⟩

/-- Modelled from the spec:
`detector.get_stop_points(min_duration=..., max_diameter=...)` (line 104),
whose code is the third-party movingpandas library and not part of this
repository: one stoppage interval per qualifying run. -/
def get_stop_points (minDurMs : Int) (d2 : Rat) (pings : List Ping) : List Stop :=
  (stopGroups minDurMs d2 pings).filterMap stopOfGroup

/-- A row of the stoppage table after line 114 added the
`duration_minutes` column. -/
structure StopRow where
  start_time : Int
  end_time : Int
  duration_s : Rat
  duration_minutes : Rat
  geometry : Point
deriving DecidableEq, Repr

/-- `stop_points['duration_minutes'] = stop_points['duration_s'] / 60`
(line 114). -/
def enrichStops (stops : List Stop) : List StopRow :=
  stops.map fun s => ⟨s.start_time, s.end_time, s.duration_s, s.duration_s / 60, s.geometry⟩

/-- The pings of the prepared table handed to `mpd.Trajectory` (line 98):
rows with a parsed timestamp index, in table order. -/
def toPings (gdf : List GeoRow) : List Ping :=
  gdf.filterMap fun g => g.timestamp.map fun t => ⟨t, g.longitude, g.latitude⟩

/-- Step 3 data path (lines 92-116): an explicitly empty stoppage table when
`gdf` is empty (line 94), otherwise the detector's output with the
`duration_minutes` column added. -/
def stop_points (gdf : List GeoRow) : List StopRow :=
  if gdf = [] then []
  else enrichStops (get_stop_points min_duration_ms (max_diameter_meters ^ 2) (toPings gdf))

/-- `trajectory_id_col = 'EquipmentId' if 'EquipmentId' in gdf.columns else
'Vehicle1_ID'` (line 97).  The prepared table keeps every loaded column, so
its columns are the loaded header. -/
def trajectory_id_col (cols : List String) : String :=
  if "EquipmentId" ∈ cols then "EquipmentId" else "Vehicle1_ID"

/-- Two-digit zero padding, as `strftime` pads month, day, hour, minute and
second fields. -/
def pad2 (n : Nat) : String :=
  if n < 10 then "0" ++ toString n else toString n

/-- Gregorian `(year, month, day)` from days since 1970-01-01: the standard
civil-from-days conversion realizing `strftime('%Y-%m-%d')`. -/
def civilFromDays (z0 : Int) : Int × Nat × Nat :=
  let z := z0 + 719468
  let era : Int := z.fdiv 146097
  let doe : Nat := (z - era * 146097).toNat
  let yoe : Nat := (doe - doe / 1460 + doe / 36524 - doe / 146096) / 365
  let doy : Nat := doe - (365 * yoe + yoe / 4 - yoe / 100)
  let mp : Nat := (5 * doy + 2) / 153
  let d : Nat := doy - (153 * mp + 2) / 5 + 1
  let m : Nat := if mp < 10 then mp + 3 else mp - 9
  (yoe + era * 400 + (if m ≤ 2 then 1 else 0), m, d)

/-- `strftime('%Y-%m-%d %H:%M:%S')` (lines 152-153) of an epoch-millisecond
timestamp: date, space, time of day, sub-second part discarded. -/
def formatTimestamp (ms : Int) : String :=
  let s := ms.fdiv 1000
  let days := s.fdiv 86400
  let sod : Nat := (s - days * 86400).toNat
  let ymd := civilFromDays days
  toString ymd.1 ++ "-" ++ pad2 ymd.2.1 ++ "-" ++ pad2 ymd.2.2 ++ " " ++
    pad2 (sod / 3600) ++ ":" ++ pad2 (sod % 3600 / 60) ++ ":" ++ pad2 (sod % 60)

/-- Python's round-half-to-even of a rational to an integer, used by
`round(x, 2)` on the scaled value. -/
def roundHalfEven (q : Rat) : Int :=
  let f : Int := q.num.fdiv (q.den : Int)
  let r : Rat := q - (f : Rat)
  if r < 1 / 2 then f
  else if 1 / 2 < r then f + 1
  else if f % 2 = 0 then f else f + 1

/-- `round(x, 2)` (line 154), on exact rationals in place of floats. -/
def round2 (q : Rat) : Rat := (roundHalfEven (q * 100) : Rat) / 100

/-- Decimal rendering of `n / 100`, the way Python prints the rounded
duration: sign, integer part, dot, fractional digits with one trailing zero
dropped ("10.0", "10.5", "10.17"). -/
def showCenti (n : Int) : String :=
  let sign := if n < 0 then "-" else ""
  let a := n.natAbs
  let ip := a / 100
  let fp := a % 100
  sign ++ toString ip ++ "." ++ (if fp % 10 = 0 then toString (fp / 10) else pad2 fp)

/-- Rendering of `round(q, 2)` as interpolated into the popup. -/
def showRound2 (q : Rat) : String := showCenti (roundHalfEven (q * 100))

/-- The popup f-string skeleton (lines 156-162), with the three interpolated
values as arguments. -/
def popupHtml (reach endt dur : String) : String :=
  "\n            <b>Stoppage Details</b><br>\n            -----------------------------<br>\n            <b>Reach Time:</b> " ++
    (reach ++ ("<br>\n            <b>End Time:</b> " ++
      (endt ++ ("<br>\n            <b>Duration:</b> " ++
        (dur ++ " minutes\n            ")))))

/-- One `folium.Marker` (lines 150-168): location `[geometry.y, geometry.x]`,
the formatted times, the rounded duration and the popup text. -/
structure Marker where
  location_lat : Rat
  location_lon : Rat
  reach_time_str : String
  end_time_str : String
  stoppage_duration_minutes : Rat
  popup_html : String
deriving DecidableEq, Repr

/-- The marker built for one stoppage row (lines 151-168). -/
def mkMarker (r : StopRow) : Marker :=
  let reach := formatTimestamp r.start_time
  let endt := formatTimestamp r.end_time
  { location_lat := r.geometry.y
    location_lon := r.geometry.x
    reach_time_str := reach
    end_time_str := endt
    stoppage_duration_minutes := round2 r.duration_minutes
    popup_html := popupHtml reach endt (showRound2 r.duration_minutes) }

/-- The rendered map: center, zoom, the optional path polyline and the
stoppage markers. -/
structure MapArtifact where
  center_lat : Rat
  center_lon : Rat
  zoom_start : Nat
  path : Option (List (Rat × Rat))
  markers : List Marker
deriving DecidableEq, Repr

/-- pandas `Series.mean()` on the already-NaN-free coordinate columns:
sum over length. -/
def mean (xs : List Rat) : Rat := xs.sum / (xs.length : Rat)

/-- Step 4 data path (lines 127-168): mean center when `gdf` is non-empty,
fixed fallback `(20.0827, 78.9629)` otherwise (lines 132-133); the path
polyline over `(latitude, longitude)` pairs when `gdf` is non-empty; one
marker per stoppage row. -/
def renderMap (gdf : List GeoRow) (stops : List StopRow) : MapArtifact :=
  { center_lat := if gdf = [] then (20.0827 : Rat) else mean (gdf.map GeoRow.latitude)
    center_lon := if gdf = [] then (78.9629 : Rat) else mean (gdf.map GeoRow.longitude)
    zoom_start := 12
    path := if gdf = [] then none else some (gdf.map fun g => (g.latitude, g.longitude))
    markers := stops.map mkMarker }

/-- `output_map_file = "vehicle_stoppages_map.html"` (line 174). -/
def output_map_file : String := "vehicle_stoppages_map.html"

/-- The run's external conditions: the sheet fetch result (step 1), whether
the third-party detector raises on the non-empty path (step 3, e.g.
movingpandas rejects a trajectory it cannot build), and whether map
rendering or saving raises (step 4). -/
structure Env where
  load : Except String RawTable
  mpdRaises : Bool
  renderRaises : Bool
deriving Repr

/-- How one run of the script ends: `exit()` in the `except` block of
step 1 (line 42), step 2 (line 88) or step 3 (line 122), or fall-through to
the end with the map save result (`none` when step 4 raised before the
save, line 180). -/
inductive Outcome where
  | abortedLoad
  | abortedPrepare
  | abortedDetect
  | completed (saved : Option (String × MapArtifact))
deriving DecidableEq, Repr

/-- Step 3 as a stage (lines 91-122): the empty-table branch makes no
third-party call (lines 92-94); otherwise a raise in the detector is caught
and aborts the run. -/
def detectStage (mpdRaises : Bool) (gdf : List GeoRow) : Except String (List StopRow) :=
  if gdf = [] then .ok []
  else if mpdRaises then .error "Error detecting stoppages"
  else .ok (stop_points gdf)

/-- The whole script: four stages in sequence, `exit()` on a caught
exception in steps 1-3, step 4 reported but never aborting. -/
def runScript (env : Env) : Outcome :=
  match env.load with
  | .error _ => .abortedLoad
  | .ok t =>
    match prepareTable t with
    | .error _ => .abortedPrepare
    | .ok gdf =>
      match detectStage env.mpdRaises gdf with
      | .error _ => .abortedDetect
      | .ok stops =>
        if env.renderRaises then .completed none
        else .completed (some (output_map_file, renderMap gdf stops))

/-- Whether an outcome is a normal completion (reaches the end of the
script) rather than an `exit()`. -/
def isCompleted : Outcome → Bool
  | .completed _ => true
  | _ => false

/-- small occurs as a contiguous substring of big. -/
def containsStr (big small : String) : Prop :=
  ∃ a b : List Char, big.data = a ++ (small.data ++ b)

/-- Timestamp-index order on raw rows, the order `sort_index` establishes. -/
def RowLe (a b : RawRow) : Prop :=
  tsLe a.eventGeneratedTime b.eventGeneratedTime = true

/-- Every pair of pings of the group lies within the (squared) maximum
diameter: the "spatial spread of contributing points" bound. -/
def within (d2 : Rat) (g : List Ping) : Prop :=
  ∀ p ∈ g, ∀ q ∈ g, dist2 p q ≤ d2

/-- A row whose timestamp fails to parse but whose coordinates are numeric. -/
def badTimestampRow : RawRow := ⟨none, some 19, some 77⟩

/-- A one-row prepared table for concrete checks. -/
def gdfOne : List GeoRow := [⟨some 0, 10, 20, ⟨20, 10⟩⟩]

/-- A sheet whose single row has the timestamp but no valid coordinate. -/
def tblAllInvalid : RawTable :=
  ⟨["eventGeneratedTime", "latitude", "longitude"], [⟨some 5, none, none⟩]⟩

/-- A run over `tblAllInvalid`: load succeeds, the map save succeeds. -/
def envAllInvalid : Env := ⟨.ok tblAllInvalid, true, false⟩

/-- A sheet with one fully valid row (and no vehicle-identifier column). -/
def tblOneValid : RawTable :=
  ⟨["eventGeneratedTime", "latitude", "longitude"], [⟨some 0, some 19, some 77⟩]⟩

/-- A run over `tblOneValid` in which the third-party detector raises
(movingpandas rejects the trajectory it is asked to build, e.g. a
single-point trajectory). -/
def envDetectRaises : Env := ⟨.ok tblOneValid, true, false⟩

/-- Two pings five minutes apart at the same location: one stoppage. -/
def stationaryPings : List Ping := [⟨0, 0, 0⟩, ⟨300000, 0, 0⟩]

/-- The stop the detector emits on `stationaryPings`. -/
def stationaryStop : Stop := ⟨0, 300000, 300, ⟨0, 0⟩⟩

theorem containsStr_middle (u v w : String) : containsStr (u ++ (v ++ w)) v :=
  ⟨u.data, w.data, by simp [String.data_append]⟩

theorem containsStr_append_left (u s v : String) (h : containsStr s v) :
    containsStr (u ++ s) v := by
  obtain ⟨a, b, hab⟩ := h
  exact ⟨u.data ++ a, b, by simp [String.data_append, hab]⟩

theorem trajectory_id_col_spec (cols : List String) :
    ("EquipmentId" ∈ cols → trajectory_id_col cols = "EquipmentId")
    ∧ ("EquipmentId" ∉ cols → trajectory_id_col cols = "Vehicle1_ID") := by
  constructor <;> intro h <;> simp [trajectory_id_col, h]

/-- C8: the trajectory-identifier column is chosen by a first-match rule over
exactly the two accepted names: `EquipmentId` when that column is present,
otherwise `Vehicle1_ID` — whether or not `Vehicle1_ID` exists. -/
theorem trajectory_id_col_first_match (cols : List String) :
    ("EquipmentId" ∈ cols → trajectory_id_col cols = "EquipmentId")
    ∧ ("EquipmentId" ∉ cols →
        trajectory_id_col cols = "Vehicle1_ID"
        ∧ trajectory_id_col ("Vehicle1_ID" :: cols) = "Vehicle1_ID"
        ∧ trajectory_id_col (cols.filter fun c => c ≠ "Vehicle1_ID") = "Vehicle1_ID") := by
  refine ⟨(trajectory_id_col_spec cols).1, fun h => ⟨(trajectory_id_col_spec cols).2 h, ?_, ?_⟩⟩
  · refine (trajectory_id_col_spec _).2 ?_
    simp [h]
  · refine (trajectory_id_col_spec _).2 ?_
    intro hmem
    exact h (List.mem_of_mem_filter hmem)

/-- C6: when the prepared table is non-empty, the map center is the
arithmetic mean of its latitudes and the arithmetic mean of its
longitudes. -/
theorem map_center_is_mean (gdf : List GeoRow) (stops : List StopRow) (h : gdf ≠ []) :
    (renderMap gdf stops).center_lat = (gdf.map GeoRow.latitude).sum / (gdf.length : Rat)
    ∧ (renderMap gdf stops).center_lon = (gdf.map GeoRow.longitude).sum / (gdf.length : Rat) := by
  simp [renderMap, mean, h]

theorem map_center_is_mean_witness :
    gdfOne ≠ []
    ∧ ((renderMap gdfOne []).center_lat = (gdfOne.map GeoRow.latitude).sum / (gdfOne.length : Rat)
      ∧ (renderMap gdfOne []).center_lon = (gdfOne.map GeoRow.longitude).sum / (gdfOne.length : Rat)) :=
  ⟨by simp [gdfOne], map_center_is_mean gdfOne [] (by simp [gdfOne])⟩

/-- C10: every row of the stoppage table has
`duration_minutes = duration_s / 60`, so the duration the popup shows is
`round(duration_s / 60, 2)`. -/
theorem duration_minutes_from_seconds (gdf : List GeoRow) :
    (∀ r ∈ stop_points gdf, r.duration_minutes = r.duration_s / 60)
    ∧ ∀ r ∈ stop_points gdf,
        (mkMarker r).stoppage_duration_minutes = round2 (r.duration_s / 60) := by
  have h : ∀ r ∈ stop_points gdf, r.duration_minutes = r.duration_s / 60 := by
    intro r hr
    unfold stop_points at hr
    split at hr
    · simp at hr
    · obtain ⟨s, _, rfl⟩ := List.mem_map.1 hr
      rfl
  refine ⟨h, fun r hr => ?_⟩
  have : (mkMarker r).stoppage_duration_minutes = round2 r.duration_minutes := rfl
  rw [this, h r hr]

/-- C9: the map gets exactly one marker per stoppage row, placed at the
row's representative point, and the marker's popup carries the
`%Y-%m-%d %H:%M:%S`-formatted start and end times and the duration in
minutes rounded to two decimals. -/
theorem one_marker_per_stoppage (gdf : List GeoRow) (stops : List StopRow) :
    (renderMap gdf stops).markers = stops.map mkMarker
    ∧ ∀ r ∈ stops,
        (mkMarker r).location_lat = r.geometry.y
        ∧ (mkMarker r).location_lon = r.geometry.x
        ∧ (mkMarker r).reach_time_str = formatTimestamp r.start_time
        ∧ (mkMarker r).end_time_str = formatTimestamp r.end_time
        ∧ (mkMarker r).stoppage_duration_minutes = round2 r.duration_minutes
        ∧ (mkMarker r).popup_html
            = popupHtml (formatTimestamp r.start_time) (formatTimestamp r.end_time)
                (showRound2 r.duration_minutes)
        ∧ containsStr (mkMarker r).popup_html (formatTimestamp r.start_time)
        ∧ containsStr (mkMarker r).popup_html (formatTimestamp r.end_time)
        ∧ containsStr (mkMarker r).popup_html (showRound2 r.duration_minutes) := by
  refine ⟨rfl, fun r _ => ⟨rfl, rfl, rfl, rfl, rfl, rfl, ?_, ?_, ?_⟩⟩
  · exact containsStr_middle _ _ _
  · exact containsStr_append_left _ _ _ (containsStr_append_left _ _ _ (containsStr_middle _ _ _))
  · exact containsStr_append_left _ _ _ (containsStr_append_left _ _ _
      (containsStr_append_left _ _ _ (containsStr_append_left _ _ _ (containsStr_middle _ _ _))))

theorem perm_insertTS (r : RawRow) (l : List RawRow) : (insertTS r l).Perm (r :: l) := by
  induction l with
  | nil => simp [insertTS]
  | cons s l ih =>
    rw [insertTS]
    split
    · exact List.Perm.refl _
    · exact (List.Perm.cons s ih).trans (List.Perm.swap r s l)

theorem perm_sortByTimestamp (l : List RawRow) : (sortByTimestamp l).Perm l := by
  induction l with
  | nil => exact List.Perm.refl _
  | cons r l ih => exact (perm_insertTS r (sortByTimestamp l)).trans (List.Perm.cons r ih)

theorem tsLe_total (a b : Option Int) : tsLe a b = true ∨ tsLe b a = true := by
  cases a <;> cases b <;> simp [tsLe] <;> omega

theorem tsLe_trans {a b c : Option Int} (h1 : tsLe a b = true) (h2 : tsLe b c = true) :
    tsLe a c = true := by
  cases a <;> cases b <;> cases c <;> simp_all [tsLe] <;> omega

theorem pairwise_insertTS {l : List RawRow} (r : RawRow) (h : l.Pairwise RowLe) :
    (insertTS r l).Pairwise RowLe := by
  induction l with
  | nil => simp [insertTS]
  | cons s l ih =>
    rw [insertTS]
    cases h with
    | cons hsl hl =>
      split
      case isTrue hts =>
        refine List.Pairwise.cons ?_ (List.Pairwise.cons hsl hl)
        intro x hx
        rcases List.mem_cons.1 hx with rfl | hx
        · exact hts
        · exact tsLe_trans hts (hsl x hx)
      case isFalse hts =>
        refine List.Pairwise.cons ?_ (ih hl)
        intro x hx
        have hx2 : x ∈ r :: l := (perm_insertTS r l).mem_iff.1 hx
        rcases List.mem_cons.1 hx2 with rfl | hx2
        · rcases tsLe_total s.eventGeneratedTime x.eventGeneratedTime with ht | ht
          · exact ht
          · exact absurd ht hts
        · exact hsl x hx2

theorem pairwise_sortByTimestamp (l : List RawRow) : (sortByTimestamp l).Pairwise RowLe := by
  induction l with
  | nil => exact List.Pairwise.nil
  | cons r l ih => exact pairwise_insertTS r ih

theorem toGeoRow_fields {r : RawRow} {g : GeoRow} (h : toGeoRow r = some g) :
    r.latitude = some g.latitude ∧ r.longitude = some g.longitude
      ∧ r.eventGeneratedTime = g.timestamp := by
  obtain ⟨et, rla, rlo⟩ := r
  cases rla with
  | none => simp [toGeoRow] at h
  | some la =>
    cases rlo with
    | none => simp [toGeoRow] at h
    | some lo =>
      simp only [toGeoRow, Option.some.injEq] at h
      subst h
      exact ⟨rfl, rfl, rfl⟩

theorem toGeoRow_of_both_some {r : RawRow} {la lo : Rat}
    (hla : r.latitude = some la) (hlo : r.longitude = some lo) :
    toGeoRow r = some ⟨r.eventGeneratedTime, la, lo, ⟨lo, la⟩⟩ := by
  obtain ⟨et, rla, rlo⟩ := r
  simp only at hla hlo
  subst hla; subst hlo
  rfl

theorem length_filterMap_toGeoRow (l : List RawRow) :
    (l.filterMap toGeoRow).length
      = (l.filter fun r => r.latitude.isSome && r.longitude.isSome).length := by
  induction l with
  | nil => rfl
  | cons r l ih =>
    obtain ⟨et, rla, rlo⟩ := r
    cases rla <;> cases rlo <;>
      simp [List.filterMap_cons, List.filter_cons, toGeoRow, ih]

/-- C7: the prepared geometry table is ordered by its parsed timestamp in
non-decreasing order — any earlier row with a parsed timestamp has a value
at most that of any later row with a parsed timestamp — and the order
survives the invalid-coordinate drop (the statement is about the
post-drop table `prepare`). -/
theorem prepared_table_time_ordered (rows : List RawRow) :
    (prepare rows).Pairwise fun g h : GeoRow =>
      ∀ a b : Int, g.timestamp = some a → h.timestamp = some b → a ≤ b := by
  have hs : (sortByTimestamp rows).Pairwise RowLe := pairwise_sortByTimestamp rows
  unfold prepare
  rw [List.pairwise_filterMap]
  refine hs.imp ?_
  intro r s hrs g hg g2 hg2 a b ha hb
  have h1 := (toGeoRow_fields hg).2.2
  have h2 := (toGeoRow_fields hg2).2.2
  have : tsLe (some a) (some b) = true := by
    rw [← ha, ← hb, ← h1, ← h2]
    exact hrs
  simpa [tsLe] using this

/-- C5: a row whose latitude or longitude fails to parse is excluded from
the prepared table (its length counts exactly the rows where both parsed,
and every prepared row originates in a row where both parsed); a row where
both parse is retained. -/
theorem invalid_coordinate_rows_excluded (rows : List RawRow) :
    (prepare rows).length
        = (rows.filter fun r => r.latitude.isSome && r.longitude.isSome).length
    ∧ (∀ g ∈ prepare rows, ∃ r ∈ rows,
        r.latitude = some g.latitude ∧ r.longitude = some g.longitude
          ∧ r.eventGeneratedTime = g.timestamp)
    ∧ ∀ r ∈ rows, ∀ la lo : Rat, r.latitude = some la → r.longitude = some lo →
        ∃ g ∈ prepare rows, g.latitude = la ∧ g.longitude = lo
          ∧ g.timestamp = r.eventGeneratedTime := by
  have hperm := perm_sortByTimestamp rows
  refine ⟨?_, ?_, ?_⟩
  · have h1 : (prepare rows).length = (rows.filterMap toGeoRow).length :=
      (hperm.filterMap toGeoRow).length_eq
    rw [h1, length_filterMap_toGeoRow]
  · intro g hg
    obtain ⟨r, hr, hrg⟩ := List.mem_filterMap.1 hg
    exact ⟨r, hperm.mem_iff.1 hr, toGeoRow_fields hrg⟩
  · intro r hr la lo hla hlo
    refine ⟨⟨r.eventGeneratedTime, la, lo, ⟨lo, la⟩⟩,
      List.mem_filterMap.2 ⟨r, hperm.mem_iff.2 hr, toGeoRow_of_both_some hla hlo⟩,
      rfl, rfl, rfl⟩

theorem unparsed_timestamp_row_retained :
    prepare [badTimestampRow] = [⟨none, 19, 77, ⟨77, 19⟩⟩]
    ∧ badTimestampRow.eventGeneratedTime = none :=
  ⟨rfl, rfl⟩

/-- C3 amended: a row whose timestamp fails to parse is NOT discarded — the
dropna subset covers only latitude and longitude, so the row is retained
(with a missing timestamp index) whenever both coordinates parse. -/
theorem timestamp_parse_failure_row_kept (rows : List RawRow) (r : RawRow)
    (hr : r ∈ rows) (ht : r.eventGeneratedTime = none)
    (la lo : Rat) (hla : r.latitude = some la) (hlo : r.longitude = some lo) :
    ∃ g ∈ prepare rows, g.timestamp = none ∧ g.latitude = la ∧ g.longitude = lo := by
  refine ⟨⟨r.eventGeneratedTime, la, lo, ⟨lo, la⟩⟩,
    List.mem_filterMap.2
      ⟨r, (perm_sortByTimestamp rows).mem_iff.2 hr, toGeoRow_of_both_some hla hlo⟩,
    ht, rfl, rfl⟩

theorem timestamp_parse_failure_row_kept_witness :
    (badTimestampRow ∈ [badTimestampRow]
      ∧ badTimestampRow.eventGeneratedTime = none
      ∧ badTimestampRow.latitude = some 19 ∧ badTimestampRow.longitude = some 77)
    ∧ ∃ g ∈ prepare [badTimestampRow],
        g.timestamp = none ∧ g.latitude = 19 ∧ g.longitude = 77 :=
  ⟨⟨List.mem_singleton.2 rfl, rfl, rfl, rfl⟩,
    timestamp_parse_failure_row_kept [badTimestampRow] badTimestampRow
      (List.mem_singleton.2 rfl) rfl 19 77 rfl rfl⟩

/-- C2: with an empty prepared table the stoppage table is the explicitly
empty one, the run still completes with the map saved to the output file,
the map uses the fixed fallback center `(20.0827, 78.9629)` and has no
markers (and no path). -/
theorem empty_gdf_fallback_map (env : Env) (t : RawTable)
    (hload : env.load = .ok t) (hprep : prepareTable t = .ok [])
    (hrender : env.renderRaises = false) :
    stop_points [] = []
    ∧ runScript env = .completed (some (output_map_file, renderMap [] []))
    ∧ (renderMap [] []).center_lat = 20.0827
    ∧ (renderMap [] []).center_lon = 78.9629
    ∧ (renderMap [] []).markers = []
    ∧ (renderMap [] []).path = none := by
  refine ⟨rfl, ?_, rfl, rfl, rfl, rfl⟩
  simp [runScript, hload, hprep, detectStage, hrender]

theorem empty_gdf_fallback_map_witness :
    (envAllInvalid.load = .ok tblAllInvalid
      ∧ prepareTable tblAllInvalid = .ok []
      ∧ envAllInvalid.renderRaises = false)
    ∧ (stop_points [] = []
      ∧ runScript envAllInvalid = .completed (some (output_map_file, renderMap [] []))
      ∧ (renderMap [] []).center_lat = 20.0827
      ∧ (renderMap [] []).center_lon = 78.9629
      ∧ (renderMap [] []).markers = []
      ∧ (renderMap [] []).path = none) :=
  ⟨⟨rfl, rfl, rfl⟩, empty_gdf_fallback_map envAllInvalid tblAllInvalid rfl rfl rfl⟩

theorem isCompleted_runScript_iff (env : Env) :
    isCompleted (runScript env) = true ↔
      ∃ t gdf, env.load = .ok t ∧ prepareTable t = .ok gdf
        ∧ (gdf = [] ∨ env.mpdRaises = false) := by
  obtain ⟨load, mpd, rr⟩ := env
  cases load with
  | error e => simp [runScript, isCompleted]
  | ok t =>
    cases hp : prepareTable t with
    | error e => simp [runScript, hp, isCompleted]
    | ok gdf =>
      constructor
      · intro hdone
        refine ⟨t, gdf, rfl, hp, ?_⟩
        by_cases hg : gdf = []
        · exact .inl hg
        · by_cases hm : mpd = true
          · exfalso
            simp [runScript, hp, detectStage, hg, hm, isCompleted] at hdone
          · exact .inr (by simpa using hm)
      · rintro ⟨t2, gdf2, ht2, hp2, hcase⟩
        obtain rfl : t = t2 := by cases ht2; rfl
        rw [hp] at hp2
        obtain rfl : gdf = gdf2 := by cases hp2; rfl
        rcases hcase with rfl | hm
        · simp only [runScript, hp, detectStage, if_pos rfl]
          cases rr <;> simp [isCompleted]
        · subst hm
          by_cases hg : gdf = []
          · simp only [runScript, hp, detectStage, if_pos hg]
            cases rr <;> simp [isCompleted]
          · simp only [runScript, hp, detectStage, if_neg hg, if_neg (by simp : ¬False = true)]
            cases rr <;> simp [isCompleted]

theorem isCompleted_ignores_renderRaises (l : Except String RawTable) (m b c : Bool) :
    isCompleted (runScript ⟨l, m, b⟩) = isCompleted (runScript ⟨l, m, c⟩) := by
  cases l with
  | error e => rfl
  | ok t =>
    cases hp : prepareTable t with
    | error e => simp [runScript, hp]
    | ok gdf =>
      cases hd : detectStage m gdf with
      | error e => simp [runScript, hp, hd]
      | ok stops =>
        simp only [runScript, hp, hd]
        cases b <;> cases c <;> simp [isCompleted]

/-- C4 amended: the run completes normally exactly when the load succeeds,
the preparation succeeds, and the detection stage raises no exception
(which it cannot in the empty-table branch); the code also aborts on a
detection failure, not only on load or preparation failures.  A map-stage
failure never changes whether the run completes. -/
theorem abort_exactly_on_load_prepare_detect (env : Env) (b : Bool) :
    (isCompleted (runScript env) = true ↔
      ∃ t gdf, env.load = .ok t ∧ prepareTable t = .ok gdf
        ∧ (gdf = [] ∨ env.mpdRaises = false))
    ∧ isCompleted (runScript ⟨env.load, env.mpdRaises, b⟩) = isCompleted (runScript env) := by
  refine ⟨isCompleted_runScript_iff env, ?_⟩
  obtain ⟨l, m, rr⟩ := env
  exact isCompleted_ignores_renderRaises l m b rr

theorem detect_stage_failure_aborts :
    envDetectRaises.load = .ok tblOneValid
    ∧ prepareTable tblOneValid = .ok (prepare tblOneValid.rows)
    ∧ prepare tblOneValid.rows ≠ []
    ∧ runScript envDetectRaises = .abortedDetect
    ∧ isCompleted (runScript envDetectRaises) = false :=
  ⟨rfl, rfl, by simp [tblOneValid, prepare, sortByTimestamp, insertTS, toGeoRow], rfl, rfl⟩

theorem dist2_comm (p q : Ping) : dist2 p q = dist2 q p := by
  unfold dist2; ring

theorem dist2_self (p : Ping) : dist2 p p = 0 := by
  unfold dist2; ring

theorem fits_spec {d2 : Rat} {grp : List Ping} {p : Ping} (h : fits d2 grp p = true) :
    ∀ q ∈ grp, dist2 p q ≤ d2 := by
  intro q hq
  exact of_decide_eq_true (List.all_eq_true.1 h q hq)

theorem within_singleton {d2 : Rat} (hd2 : 0 ≤ d2) (p : Ping) : within d2 [p] := by
  intro a ha b hb
  rw [List.mem_singleton] at ha hb
  subst ha; subst hb
  rw [dist2_self]
  exact hd2

theorem within_snoc {d2 : Rat} (hd2 : 0 ≤ d2) {cur : List Ping} {p : Ping}
    (hcur : within d2 cur) (hf : fits d2 cur p = true) : within d2 (cur ++ [p]) := by
  intro a ha b hb
  rcases List.mem_append.1 ha with ha2 | ha2 <;> rcases List.mem_append.1 hb with hb2 | hb2
  · exact hcur a ha2 b hb2
  · rw [List.mem_singleton] at hb2
    subst hb2
    rw [dist2_comm]
    exact fits_spec hf a ha2
  · rw [List.mem_singleton] at ha2
    subst ha2
    exact fits_spec hf b hb2
  · rw [List.mem_singleton] at ha2 hb2
    subst ha2; subst hb2
    rw [dist2_self]
    exact hd2

theorem groupPings_within {d2 : Rat} (hd2 : 0 ≤ d2) :
    ∀ (ps cur : List Ping), within d2 cur →
      ∀ g ∈ groupPings d2 cur ps, within d2 g := by
  intro ps
  induction ps with
  | nil =>
    intro cur hcur g hg
    rw [groupPings, List.mem_singleton] at hg
    subst hg
    exact hcur
  | cons p ps ih =>
    intro cur hcur g hg
    rw [groupPings] at hg
    split at hg
    case isTrue hf => exact ih (cur ++ [p]) (within_snoc hd2 hcur hf) g hg
    case isFalse hf =>
      rcases List.mem_cons.1 hg with rfl | hg2
      · exact hcur
      · exact ih [p] (within_singleton hd2 p) g hg2

theorem stopGroups_within {d2 : Rat} (hd2 : 0 ≤ d2) (minDurMs : Int) (pings : List Ping) :
    ∀ g ∈ stopGroups minDurMs d2 pings, within d2 g := by
  intro g hg
  cases pings with
  | nil => simp [stopGroups] at hg
  | cons p ps =>
    rw [stopGroups] at hg
    exact groupPings_within hd2 ps [p] (within_singleton hd2 p) g (List.mem_filter.1 hg).1

theorem stopGroups_duration {minDurMs : Int} {d2 : Rat} {pings g : List Ping}
    (hg : g ∈ stopGroups minDurMs d2 pings) : durOk minDurMs g = true := by
  cases pings with
  | nil => simp [stopGroups] at hg
  | cons p ps =>
    rw [stopGroups] at hg
    exact (List.mem_filter.1 hg).2

/-- C1: every stop point the detector emits under the configured threshold
(5 minutes) and maximum diameter (50 meters) lasts at least the threshold —
in milliseconds and in minutes — and comes from a run of contributing
points that stay pairwise within the maximum diameter. -/
theorem stop_point_meets_thresholds (pings : List Ping) (s : Stop)
    (hs : s ∈ get_stop_points min_duration_ms (max_diameter_meters ^ 2) pings) :
    min_duration_ms ≤ s.end_time - s.start_time
    ∧ (STOPPAGE_THRESHOLD_MINUTES : Rat) ≤ s.duration_s / 60
    ∧ ∃ g ∈ stopGroups min_duration_ms (max_diameter_meters ^ 2) pings,
        stopOfGroup g = some s
        ∧ ∀ p ∈ g, ∀ q ∈ g, dist2 p q ≤ max_diameter_meters ^ 2 := by
  obtain ⟨g, hg, hsg⟩ := List.mem_filterMap.1 hs
  have hw : within (max_diameter_meters ^ 2) g :=
    stopGroups_within (by norm_num [max_diameter_meters]) min_duration_ms pings g hg
  have hdur := stopGroups_duration hg
  cases g with
  | nil => simp [stopOfGroup] at hsg
  | cons p gs =>
    have hms : min_duration_ms ≤ (gs.getLastD p).t - p.t := by
      simpa [durOk] using hdur
    simp only [stopOfGroup, Option.some.injEq] at hsg
    subst hsg
    refine ⟨by simpa using hms, ?_, p :: gs, hg, rfl, hw⟩
    have hx : (300000 : Rat) ≤ (((gs.getLastD p).t - p.t : Int) : Rat) := by
      have : (300000 : Int) ≤ (gs.getLastD p).t - p.t := by
        simpa [min_duration_ms, STOPPAGE_THRESHOLD_MINUTES] using hms
      exact_mod_cast this
    show (STOPPAGE_THRESHOLD_MINUTES : Rat) ≤ (((gs.getLastD p).t - p.t : Int) : Rat) / 1000 / 60
    rw [div_div, show ((STOPPAGE_THRESHOLD_MINUTES : Int) : Rat) = 5 by
      norm_num [STOPPAGE_THRESHOLD_MINUTES]]
    rw [le_div_iff₀ (by norm_num : (0 : Rat) < 1000 * 60)]
    linarith

theorem stop_point_meets_thresholds_witness :
    stationaryStop ∈ get_stop_points min_duration_ms (max_diameter_meters ^ 2) stationaryPings
    ∧ (min_duration_ms ≤ stationaryStop.end_time - stationaryStop.start_time
      ∧ (STOPPAGE_THRESHOLD_MINUTES : Rat) ≤ stationaryStop.duration_s / 60
      ∧ ∃ g ∈ stopGroups min_duration_ms (max_diameter_meters ^ 2) stationaryPings,
          stopOfGroup g = some stationaryStop
          ∧ ∀ p ∈ g, ∀ q ∈ g, dist2 p q ≤ max_diameter_meters ^ 2) := by
  have hmem : stationaryStop
      ∈ get_stop_points min_duration_ms (max_diameter_meters ^ 2) stationaryPings := by
    norm_num [get_stop_points, stopGroups, groupPings, fits, dist2, durOk, stopOfGroup,
      stationaryPings, stationaryStop, min_duration_ms, STOPPAGE_THRESHOLD_MINUTES,
      max_diameter_meters, List.getLastD, List.filter, List.filterMap]
  exact ⟨hmem, stop_point_meets_thresholds stationaryPings stationaryStop hmem⟩

end StoppageAnalysis
